import Mathlib

/-!
Shallow embedding of the binary asset codec layer of the ff7-lgp-explorer
repository (src/texfile.ts, src/animfile.ts, src/rsdfile.ts), and proofs of
the frozen claims about it.

Conventions of the embedding:
* A byte buffer (JS Uint8Array) is a `List Nat`; entries of real buffers are
  bytes (< 256).  Little-endian 32-bit reads are spelled out with explicit
  arithmetic.
* Fallible operations (binary-parser / DataView reads that throw on a short
  buffer, TypedArray.set / DataView.setUint32 that throw on overflow) are
  modelled with `Option` / `Except`: `none` / `.error` is the thrown
  exception.
* JS 32-bit operators (`&`, `>>`, `<<` operate on ToInt32 of their operands,
  shift counts are ToUint32 masked to 5 bits, byte stores reduce mod 256) are
  modelled on the two's-complement *bit patterns* as naturals, with explicit
  `% 2^32` / `% 256`.
* IEEE-754 float payloads (animation rotation/translation samples) are kept
  as their raw little-endian 4-byte bit patterns: every claim about them is
  structural (field counts and layout), never about numeric float values.
-/

set_option maxRecDepth 100000

namespace LGP

/-- Bytes of the little-endian 32-bit encoding of `n % 2^32`
(DataView.setUint32 little-endian). -/
def dword (n : Nat) : List Nat :=
  [n % 256, n / 256 % 256, n / 65536 % 256, n / 16777216 % 256]

/-- A run of `n` zero bytes (freshly allocated Uint8Array content). -/
def zeros (n : Nat) : List Nat :=
  List.replicate n 0

/-- Little-endian unsigned 32-bit read at `off` (total version; out-of-range
bytes read as 0, callers guard the length where the source would throw). -/
def u32 (buf : List Nat) (off : Nat) : Nat :=
  buf.getD off 0 + buf.getD (off + 1) 0 * 256 + buf.getD (off + 2) 0 * 65536 +
    buf.getD (off + 3) 0 * 16777216

/-- Little-endian unsigned read of `n` bytes at `off`. -/
def leRead (buf : List Nat) (off : Nat) : Nat → Nat
  | 0 => 0
  | n + 1 => buf.getD off 0 + leRead buf (off + 1) n * 256

/-- DataView.getUint32 little-endian: `none` is the RangeError thrown when
the read would pass the end of the buffer. -/
def readU32 (buf : List Nat) (off : Nat) : Option Nat :=
  if off + 4 ≤ buf.length then some (u32 buf off) else none

/-- Signed reinterpretation of an unsigned 32-bit value (DataView.getInt32). -/
def toInt32 (n : Nat) : Int :=
  if n % 4294967296 < 2147483648 then (n % 4294967296 : Int)
  else (n % 4294967296 : Int) - 4294967296

/-- DataView.getInt32 little-endian with bounds check. -/
def readI32 (buf : List Nat) (off : Nat) : Option Int :=
  (readU32 buf off).map toInt32

/-- DataView.getUint8 with bounds check. -/
def readU8 (buf : List Nat) (off : Nat) : Option Nat :=
  if off + 1 ≤ buf.length then some (buf.getD off 0) else none

/-- TypedArray.prototype.set / sequential DataView stores: overwrite
`dst[off .. off + src.length)` with `src`; `none` is the RangeError thrown
when the write would pass the end of the destination. -/
def storeBytes (dst : List Nat) (off : Nat) (src : List Nat) : Option (List Nat) :=
  if off + src.length ≤ dst.length then
    some (dst.take off ++ src ++ dst.drop (off + src.length))
  else none

/-! ## Texture codec (src/texfile.ts) -/

/-- Structure `PixelFormat` of src/texfile.ts: 20 uint32 fields, in file order. -/
structure PixelFormat where
  redBits : Nat
  greenBits : Nat
  blueBits : Nat
  alphaBits : Nat
  redMask : Nat
  greenMask : Nat
  blueMask : Nat
  alphaMask : Nat
  redShift : Nat
  greenShift : Nat
  blueShift : Nat
  alphaShift : Nat
  redLoss : Nat
  greenLoss : Nat
  blueLoss : Nat
  alphaLoss : Nat
  redMax : Nat
  greenMax : Nat
  blueMax : Nat
  alphaMax : Nat
deriving Repr, DecidableEq

/-- Scalar header part of `TexData` of src/texfile.ts, as produced by
`texHeaderParser` (the payload arrays are attached by the constructor, see
`TexData`).  `paletteIndex` is listed in the TS interface but never assigned
by the parser (it sits inside the trailing 36 skipped bytes); reading it
yields `undefined`, which the encoder's `setUint32` coerces to 0 — the
embedding fixes it at 0 accordingly. -/
structure TexHeader where
  version : Nat
  colorKeyFlag : Nat
  minBitsPerColor : Nat
  maxBitsPerColor : Nat
  minAlphaBits : Nat
  maxAlphaBits : Nat
  minBitsPerPixel : Nat
  maxBitsPerPixel : Nat
  numPalettes : Nat
  colorsPerPalette : Nat
  bitDepth : Nat
  width : Nat
  height : Nat
  bytesPerRow : Nat
  paletteFlag : Nat
  bitsPerIndex : Nat
  indexedTo8bit : Nat
  paletteSize : Nat
  colorsPerPaletteAgain : Nat
  bitsPerPixel : Nat
  bytesPerPixel : Nat
  pixelFormat : PixelFormat
  colorKeyArrayFlag : Nat
  referenceAlpha : Nat
  paletteIndex : Nat
  formatIndicator : Nat
  headerSize : Nat
deriving Repr, DecidableEq

/-- The 20 nested pixel-format reads of `texHeaderParser` starting at byte
offset `off` (each field a little-endian uint32, in file order). -/
def pixelFormatParse (buf : List Nat) (off : Nat) : PixelFormat :=
  { redBits := u32 buf off
    greenBits := u32 buf (off + 4)
    blueBits := u32 buf (off + 8)
    alphaBits := u32 buf (off + 12)
    redMask := u32 buf (off + 16)
    greenMask := u32 buf (off + 20)
    blueMask := u32 buf (off + 24)
    alphaMask := u32 buf (off + 28)
    redShift := u32 buf (off + 32)
    greenShift := u32 buf (off + 36)
    blueShift := u32 buf (off + 40)
    alphaShift := u32 buf (off + 44)
    redLoss := u32 buf (off + 48)
    greenLoss := u32 buf (off + 52)
    blueLoss := u32 buf (off + 56)
    alphaLoss := u32 buf (off + 60)
    redMax := u32 buf (off + 64)
    greenMax := u32 buf (off + 68)
    blueMax := u32 buf (off + 72)
    alphaMax := u32 buf (off + 76) }

/-- Parser `texHeaderParser` of src/texfile.ts.  The combinator chain reads, in
order: version@0, (skip 4), colorKeyFlag@8, (skip 8), six min/max fields
@20..44, the format-indicator uint32 @44 (= 0x2C), then `seek`s back 4 bytes
iff that value is non-zero, so the remaining fields start at `base` = 44
(alternative layout) or 48 (standard layout): numPalettes@base,
colorsPerPalette, bitDepth, width, height, bytesPerRow, (skip 4),
paletteFlag, bitsPerIndex, indexedTo8bit, paletteSize, colorsPerPaletteAgain,
(skip 4), bitsPerPixel, bytesPerPixel, the 20 pixel-format fields,
colorKeyArrayFlag, (skip 4), referenceAlpha, (skip 36); `saveOffset` then
records the header size `base + 188` (0xEC standard / 0xE8 alternative).
binary-parser throws exactly when a read passes the end of the buffer; since
the reads advance monotonically the chain fails iff the buffer is shorter
than the end of the last read (48 bytes up to the indicator, `base + 152`
overall), which the two guards below capture; all in-range reads are the
total `u32`. -/
def texHeaderParse (buf : List Nat) : Option TexHeader :=
  if buf.length < 48 then none
  else
    let fi := u32 buf 44
    let base := if fi = 0 then 48 else 44
    if buf.length < base + 152 then none
    else
      some
        { version := u32 buf 0
          colorKeyFlag := u32 buf 8
          minBitsPerColor := u32 buf 20
          maxBitsPerColor := u32 buf 24
          minAlphaBits := u32 buf 28
          maxAlphaBits := u32 buf 32
          minBitsPerPixel := u32 buf 36
          maxBitsPerPixel := u32 buf 40
          numPalettes := u32 buf base
          colorsPerPalette := u32 buf (base + 4)
          bitDepth := u32 buf (base + 8)
          width := u32 buf (base + 12)
          height := u32 buf (base + 16)
          bytesPerRow := u32 buf (base + 20)
          paletteFlag := u32 buf (base + 28)
          bitsPerIndex := u32 buf (base + 32)
          indexedTo8bit := u32 buf (base + 36)
          paletteSize := u32 buf (base + 40)
          colorsPerPaletteAgain := u32 buf (base + 44)
          bitsPerPixel := u32 buf (base + 52)
          bytesPerPixel := u32 buf (base + 56)
          pixelFormat := pixelFormatParse buf (base + 60)
          colorKeyArrayFlag := u32 buf (base + 140)
          referenceAlpha := u32 buf (base + 148)
          paletteIndex := 0
          formatIndicator := fi
          headerSize := base + 188 }

/-- Validation `isValidTexData` of src/texfile.ts. -/
def isValidTexData (h : TexHeader) : Bool :=
  decide (0 < h.width) && decide (h.width ≤ 4096) &&
  decide (0 < h.height) && decide (h.height ≤ 4096) &&
  decide (0 < h.bitDepth) && decide (h.bitDepth ≤ 32) &&
  decide (0 < h.bytesPerPixel) && decide (h.bytesPerPixel ≤ 4)

/-- Decoded texture: the header plus the payload arrays attached by the
`TexFile` constructor (`palette` present iff read, `colorKeyArray` present
iff read). -/
structure TexData where
  hdr : TexHeader
  palette : Option (List Nat)
  pixels : List Nat
  colorKeyArray : Option (List Nat)
deriving Repr, DecidableEq

/-- Distinct failure conditions of the `TexFile` constructor, one per thrown
message: `headerParse` is "Failed to parse TEX header", `malformedHeader`
is "Invalid TEX data: WxH, bitDepth=…, bytesPerPixel=…" (carrying the four
reported values), `truncated` is "TEX file truncated: … offset …, file size
…" (carrying the reported offset and file size). -/
inductive TexError where
  | headerParse : TexError
  | malformedHeader (width height bitDepth bytesPerPixel : Nat) : TexError
  | truncated (offset fileSize : Nat) : TexError
deriving Repr, DecidableEq

/-- Tail of the `TexFile` constructor after the palette section: mandatory
pixel payload (truncation check then slice), then the optional color-key
array, read only when its flag is set and the remaining buffer suffices
(silently omitted otherwise). -/
def texReadPixels (buf : List Nat) (h : TexHeader) (off : Nat)
    (pal : Option (List Nat)) : Except TexError TexData :=
  let pixelDataSize := h.width * h.height * h.bytesPerPixel
  if buf.length < off + pixelDataSize then .error (.truncated off buf.length)
  else
    let pixels := (buf.drop off).take pixelDataSize
    let off2 := off + pixelDataSize
    let cka :=
      if h.colorKeyArrayFlag ≠ 0 ∧ off2 + h.numPalettes ≤ buf.length then
        some ((buf.drop off2).take h.numPalettes)
      else none
    .ok ⟨h, pal, pixels, cka⟩

/-- The `TexFile` constructor of src/texfile.ts: parse the header (wrapping
a parser throw), validate it, then read palette (iff `paletteFlag` set,
`paletteSize * 4` bytes), pixels, and optional color-key array. -/
def texDecode (buf : List Nat) : Except TexError TexData :=
  match texHeaderParse buf with
  | none => .error .headerParse
  | some h =>
    if isValidTexData h then
      let off0 := h.headerSize
      if h.paletteFlag ≠ 0 then
        let paletteSize := h.paletteSize * 4
        if buf.length < off0 + paletteSize then
          .error (.truncated off0 buf.length)
        else
          texReadPixels buf h (off0 + paletteSize)
            (some ((buf.drop off0).take paletteSize))
      else texReadPixels buf h off0 none
    else
      .error (.malformedHeader h.width h.height h.bitDepth h.bytesPerPixel)

/-! ### Pixel expansion (`TexFile.getPixels`) -/

/-- The colors-per-sub-palette recomputation at the top of the palette
branch of `getPixels`: `numPalettes > 0 ? floor(paletteSize / numPalettes)
: colorsPerPalette` (the header's own colors-per-palette field is only the
fallback for `numPalettes = 0`). -/
def actualColorsPerPalette (h : TexHeader) : Nat :=
  if 0 < h.numPalettes then h.paletteSize / h.numPalettes
  else h.colorsPerPalette

/-- One output RGBA quadruplet of the palette branch of `getPixels`: the
pixel byte indexes the palette, whose four bytes per color are stored
B,G,R,A and emitted R,G,B,A (bytes 2,1,0,3).  Out-of-range reads of a JS
TypedArray give `undefined`, which a Uint8Array store coerces to 0, hence
the `getD … 0` defaults (an out-of-range pixel index makes `colorIndex`
NaN and all four stores 0). -/
def paletteQuad (t : TexData) (pal : List Nat) (paletteIndex i : Nat) : List Nat :=
  match t.pixels[i]? with
  | none => [0, 0, 0, 0]
  | some px =>
    let colorIndex := px * 4 + paletteIndex * actualColorsPerPalette t.hdr * 4
    [pal.getD (colorIndex + 2) 0, pal.getD (colorIndex + 1) 0,
     pal.getD colorIndex 0, pal.getD (colorIndex + 3) 0]

/-- The per-pixel value read of the direct-color branch:
`new DataView(pixels.buffer, pixelOffset, bytesPerPixel)` (RangeError when
the view passes the end of the buffer), then `getUint16` for
`bytesPerPixel = 2` and `getUint32` otherwise — the latter a RangeError
whenever the `bytesPerPixel`-byte view is shorter than 4 bytes. -/
def directPixelValue (pixels : List Nat) (off bpp : Nat) : Option Nat :=
  if off + bpp ≤ pixels.length then
    if bpp = 2 then some (leRead pixels off 2)
    else if 4 ≤ bpp then some (leRead pixels off 4)
    else none
  else none

/-- One channel byte of the direct-color branch,
`((value & mask) >> shift) << (8 - bits)` stored into a Uint8Array, under
JS semantics, expressed on two's-complement bit patterns: `&` works on
ToInt32 of the operands (pattern: `%2^32` then `&&&`), `>>` is an
arithmetic shift by `ToUint32(shift) & 31` (pattern: logical shift plus
sign-extension bits when bit 31 is set), `<<` shifts by
`ToUint32(8 - bits) & 31` and wraps to 32 bits, and the byte store keeps
the low 8 bits. -/
def jsChannelByte (value mask shift bits : Nat) : Nat :=
  let x := value % 4294967296 &&& mask % 4294967296
  let s := shift % 4294967296 % 32
  let y := if x < 2147483648 then x >>> s
           else (x >>> s) + (4294967296 - 2 ^ (32 - s))
  let c := (4294967304 - bits % 4294967296) % 4294967296 % 32
  ((y <<< c) % 4294967296) % 256

/-- One output RGBA quadruplet of the direct-color branch of `getPixels`:
`none` is the RangeError of the value read; alpha is 255 when the format
declares zero alpha bits. -/
def directQuad (t : TexData) (i : Nat) : Option (List Nat) :=
  (directPixelValue t.pixels (i * t.hdr.bytesPerPixel) t.hdr.bytesPerPixel).map
    fun value =>
      let f := t.hdr.pixelFormat
      [jsChannelByte value f.redMask f.redShift f.redBits,
       jsChannelByte value f.greenMask f.greenShift f.greenBits,
       jsChannelByte value f.blueMask f.blueShift f.blueBits,
       if 0 < f.alphaBits then
         jsChannelByte value f.alphaMask f.alphaShift f.alphaBits
       else 255]

/-- Total counterpart of `directQuad` (the value read defaulted to 0),
used to phrase the successful runs of the direct-color branch in proofs. -/
def directQuadTotal (t : TexData) (i : Nat) : List Nat :=
  let value := (directPixelValue t.pixels (i * t.hdr.bytesPerPixel)
    t.hdr.bytesPerPixel).getD 0
  let f := t.hdr.pixelFormat
  [jsChannelByte value f.redMask f.redShift f.redBits,
   jsChannelByte value f.greenMask f.greenShift f.greenBits,
   jsChannelByte value f.blueMask f.blueShift f.blueBits,
   if 0 < f.alphaBits then
     jsChannelByte value f.alphaMask f.alphaShift f.alphaBits
   else 255]

/-- Method `TexFile.getPixels` of src/texfile.ts: one RGBA byte quadruplet per
pixel, row-major.  Palette mode when `paletteFlag` is set (a missing
palette is the TypeError of dereferencing `undefined`, thrown only when at
least one pixel is processed); direct-color mode otherwise, where a pixel
value read may throw.  The JS default `paletteIndex = 0` is passed
explicitly by callers of the embedding. -/
def getPixels (t : TexData) (paletteIndex : Nat) : Option (List Nat) :=
  let numPixels := t.hdr.width * t.hdr.height
  if t.hdr.paletteFlag ≠ 0 then
    match t.palette with
    | some pal =>
      some ((List.range numPixels).flatMap (paletteQuad t pal paletteIndex))
    | none => if numPixels = 0 then some [] else none
  else
    ((List.range numPixels).mapM (directQuad t)).map List.flatten

/-! ### Re-encoding (`TexFile.writeFile`) -/

/-- The byte image laid down by the `setUint32` calls of
`TexFile.writeFile`, in source order with the skipped (zero-filled) gaps
spelled out: version, 4 zero bytes, colorKeyFlag, 12 zero bytes, the six
min/max fields, 4 zero bytes, numPalettes … bytesPerRow, 4 zero bytes,
paletteFlag … colorsPerPaletteAgain, 4 zero bytes, bitsPerPixel,
bytesPerPixel, the 20 pixel-format fields, colorKeyArrayFlag, 4 zero
bytes, referenceAlpha, 24 zero bytes, paletteIndex.  The last store ends
at byte 232; the code then skips another 20 bytes, leaving the payload
offset at 252. -/
def writeHeaderImage (t : TexData) : List Nat :=
  let h := t.hdr
  let f := h.pixelFormat
  List.flatMap
    [h.version, 0, h.colorKeyFlag, 0, 0, 0,
     h.minBitsPerColor, h.maxBitsPerColor, h.minAlphaBits, h.maxAlphaBits,
     h.minBitsPerPixel, h.maxBitsPerPixel, 0,
     h.numPalettes, h.colorsPerPalette, h.bitDepth, h.width, h.height,
     h.bytesPerRow, 0,
     h.paletteFlag, h.bitsPerIndex, h.indexedTo8bit, h.paletteSize,
     h.colorsPerPaletteAgain, 0,
     h.bitsPerPixel, h.bytesPerPixel,
     f.redBits, f.greenBits, f.blueBits, f.alphaBits,
     f.redMask, f.greenMask, f.blueMask, f.alphaMask,
     f.redShift, f.greenShift, f.blueShift, f.alphaShift,
     f.redLoss, f.greenLoss, f.blueLoss, f.alphaLoss,
     f.redMax, f.greenMax, f.blueMax, f.alphaMax,
     h.colorKeyArrayFlag, 0, h.referenceAlpha, 0, 0, 0, 0, 0, 0,
     h.paletteIndex] dword

/-- Method `TexFile.writeFile` of src/texfile.ts: allocate
`0xEC + paletteSize + pixelDataSize + colorKeyArraySize` zero bytes, write
the header fields (their stores end at byte 232 and the running offset
lands at 252), then palette (when `paletteFlag` set and a palette is
present), pixel data, and color-key array (when its flag is set and the
array is present), each an overwriting block copy that throws — `none` —
if it would pass the end of the allocation. -/
def writeFile (t : TexData) : Option (List Nat) :=
  let h := t.hdr
  let paletteSize := if h.paletteFlag ≠ 0 then h.paletteSize * 4 else 0
  let pixelDataSize := h.width * h.height * h.bytesPerPixel
  let colorKeyArraySize := if h.colorKeyArrayFlag ≠ 0 then h.numPalettes else 0
  let totalSize := 236 + paletteSize + pixelDataSize + colorKeyArraySize
  do
    let b0 ← storeBytes (zeros totalSize) 0 (writeHeaderImage t)
    let step1 : List Nat × Nat ←
      match t.palette with
      | some pal =>
        if h.paletteFlag ≠ 0 then
          (storeBytes b0 252 pal).map (fun b => (b, 252 + pal.length))
        else some (b0, 252)
      | none => some (b0, 252)
    let b2 ← storeBytes step1.1 step1.2 t.pixels
    let off2 := step1.2 + t.pixels.length
    match t.colorKeyArray with
    | some cka =>
      if h.colorKeyArrayFlag ≠ 0 then storeBytes b2 off2 cka else some b2
    | none => some b2

/-! ## Animation stream parser (src/animfile.ts) -/

/-- One rotation sample (`FieldRotation`).  The three fields hold the raw
little-endian 32-bit patterns of the floats read by `getFloat32`; the
claims about animations are structural (counts and layout), so the numeric
float interpretation of the patterns is never needed. -/
structure FieldRotation where
  alpha : Nat
  beta : Nat
  gamma : Nat
deriving Repr, DecidableEq

/-- One translation sample, raw bit patterns as in `FieldRotation`. -/
structure FieldTranslation where
  x : Nat
  y : Nat
  z : Nat
deriving Repr, DecidableEq

/-- Structure `FieldFrame` of src/animfile.ts. -/
structure FieldFrame where
  rootRotation : FieldRotation
  rootTranslation : FieldTranslation
  boneRotations : List FieldRotation
deriving Repr, DecidableEq

/-- Structure `FieldAnimationData` of src/animfile.ts. -/
structure FieldAnimationData where
  version : Int
  nFrames : Int
  nBones : Int
  rotationOrder : Nat × Nat × Nat
  frames : List FieldFrame
deriving Repr, DecidableEq

/-- Three consecutive 4-byte samples at `off` (one rotation, or one
translation via the coercion below); `none` is the RangeError of a
`getFloat32` past the end of the buffer. -/
def readRot (buf : List Nat) (off : Nat) : Option FieldRotation :=
  (readU32 buf off).bind fun a =>
    (readU32 buf (off + 4)).bind fun b =>
      (readU32 buf (off + 8)).map fun c => ⟨a, b, c⟩

/-- The inner bone-rotation loop of `FieldAnimation.parse`: `count`
rotations of 12 bytes each starting at `off`. -/
def readRots (buf : List Nat) : Nat → Nat → Option (List FieldRotation)
  | _, 0 => some []
  | off, n + 1 =>
    (readRot buf off).bind fun r =>
      (readRots buf (off + 12) n).map fun rest => r :: rest

/-- The frame loop of `FieldAnimation.parse`: each frame is a root
rotation (12 bytes), a root translation (12 bytes), then `boneCount` bone
rotations (12 bytes each), read sequentially. -/
def parseFrames (buf : List Nat) (boneCount : Nat) :
    Nat → Nat → Option (List FieldFrame)
  | _, 0 => some []
  | off, n + 1 =>
    (readRot buf off).bind fun rr =>
      (readRot buf (off + 12)).bind fun rt =>
        (readRots buf (off + 24) boneCount).bind fun brs =>
          (parseFrames buf boneCount (off + 24 + 12 * boneCount) n).map
            fun rest => ⟨rr, ⟨rt.alpha, rt.beta, rt.gamma⟩, brs⟩ :: rest

/-- Method `FieldAnimation.parse` of src/animfile.ts: int32 version, frame count
and bone count at 0/4/8, three rotation-order bytes at 12..14 (plus one
unused byte), 20 skipped runtime bytes, then exactly `nFrames` frames
starting at offset 36 with `boneCount = nBones > 0 ? nBones : 1` bone
rotations each (a negative frame count runs the loop zero times).  The
header reads end at byte 15 and the skips touch no bytes, so the header
part throws iff the buffer is shorter than 15 bytes. -/
def animParse (buf : List Nat) : Option FieldAnimationData :=
  if buf.length < 15 then none
  else
    let version := toInt32 (u32 buf 0)
    let nFrames := toInt32 (u32 buf 4)
    let nBones := toInt32 (u32 buf 8)
    let rotationOrder := (buf.getD 12 0, buf.getD 13 0, buf.getD 14 0)
    let boneCount := if 0 < nBones then nBones.toNat else 1
    (parseFrames buf boneCount 36 nFrames.toNat).map
      (fun frames => ⟨version, nFrames, nBones, rotationOrder, frames⟩)

/-- Method `FieldAnimation.getFrame`: bounds-checked lookup, `null` (= `none`)
for an out-of-range index. -/
def getFrame (d : FieldAnimationData) (index : Nat) : Option FieldFrame :=
  d.frames[index]?

/-! ## Resource descriptor parser (src/rsdfile.ts, class RSDFile) -/

/-- Structure `RSDData` of src/rsdfile.ts. -/
structure RSDData where
  id : String
  plyFile : String
  matFile : String
  grpFile : String
  numTextures : Int
  textures : List String
deriving Repr, DecidableEq

/-- The all-empty structure the parse loop starts from. -/
def rsdEmpty : RSDData :=
  ⟨"", "", "", "", 0, []⟩

/-- JS whitespace for `String.prototype.trim` and the `parseInt` prologue
(ASCII part; the source never feeds non-ASCII whitespace: RSD/HRC buffers
are decoded with TextDecoder('ascii')). -/
def isJsWhitespace (c : Char) : Bool :=
  c = ' ' ∨ c = '\t' ∨ c = '\n' ∨ c = '\r' ∨ c = '\x0b' ∨ c = '\x0c'

/-- Implementation of `String.prototype.trim`. -/
def jsTrim (cs : List Char) : List Char :=
  (((cs.dropWhile isJsWhitespace).reverse.dropWhile isJsWhitespace).reverse)

/-- Value of a non-empty list of decimal digits. -/
def digitsToNat (ds : List Char) : Nat :=
  ds.foldl (fun acc c => acc * 10 + (c.toNat - 48)) 0

/-- Implementation of `parseInt(s, 10)`: skip leading whitespace, optional sign, then a
non-empty run of decimal digits (the longest prefix; trailing garbage is
ignored); `none` is NaN. -/
def parseIntJS (cs : List Char) : Option Int :=
  let cs := cs.dropWhile isJsWhitespace
  match cs with
  | '-' :: rest =>
    let ds := rest.takeWhile Char.isDigit
    if ds.isEmpty then none else some (-(digitsToNat ds : Int))
  | '+' :: rest =>
    let ds := rest.takeWhile Char.isDigit
    if ds.isEmpty then none else some (digitsToNat ds : Int)
  | _ =>
    let ds := cs.takeWhile Char.isDigit
    if ds.isEmpty then none else some (digitsToNat ds : Int)

/-- Values on `NTEX=` right-hand sides go through `parseInt(…) || 0`: NaN (and ±0)
collapse to 0. -/
def jsOrZero (o : Option Int) : Int :=
  match o with
  | some n => n
  | none => 0

/-- Attempt of the regex `TEX\[\d+\]=(.+)` at the head of the list: the
literal "TEX[", a non-empty digit run, "]=", then a non-empty capture
reaching the end of the line (`.` cannot match a line break and lines
contain none, so the greedy `(.+)` is the whole remainder; the digit run
admits no useful backtracking because the character after a shortened run
would still be a digit, not "]"). -/
def matchTexAt (cs : List Char) : Option (List Char) :=
  match cs with
  | 'T' :: 'E' :: 'X' :: '[' :: rest =>
    let ds := rest.takeWhile Char.isDigit
    if ds.isEmpty then none
    else
      match rest.dropWhile Char.isDigit with
      | ']' :: '=' :: cap => if cap.isEmpty then none else some cap
      | _ => none
  | _ => none

/-- Implementation of `line.match(/TEX\[\d+\]=(.+)/)`: the regex is unanchored, so the
engine tries every start position left to right and returns the first
capture. -/
def searchTex : List Char → Option (List Char)
  | [] => none
  | c :: rest =>
    match matchTexAt (c :: rest) with
    | some cap => some cap
    | none => searchTex rest

/-- Body of the line loop of `RSDFile.parse`: the `startsWith` dispatch.
The string literals '@RSD', 'PLY=', 'MAT=', 'GRP=', 'NTEX=', 'TEX[' are
written as explicit character lists. -/
def rsdStep (d : RSDData) (line : List Char) : RSDData :=
  if ['@', 'R', 'S', 'D'].isPrefixOf line then
    { d with id := String.mk line }
  else if ['P', 'L', 'Y', '='].isPrefixOf line then
    { d with plyFile := String.mk (line.drop 4) }
  else if ['M', 'A', 'T', '='].isPrefixOf line then
    { d with matFile := String.mk (line.drop 4) }
  else if ['G', 'R', 'P', '='].isPrefixOf line then
    { d with grpFile := String.mk (line.drop 4) }
  else if ['N', 'T', 'E', 'X', '='].isPrefixOf line then
    { d with numTextures := jsOrZero (parseIntJS (line.drop 5)) }
  else if ['T', 'E', 'X', '['].isPrefixOf line then
    match searchTex line with
    | some cap => { d with textures := d.textures ++ [String.mk cap] }
    | none => d
  else d

/-- Implementation of `text.split(/\r?\n/)`: a separator is a line feed optionally preceded
by one carriage return (a lone carriage return does not split). -/
def splitLinesJS : List Char → List Char → List (List Char)
  | [], acc => [acc.reverse]
  | '\n' :: rest, acc =>
    (match acc with
     | '\r' :: acc2 => acc2.reverse
     | _ => acc.reverse) :: splitLinesJS rest []
  | c :: rest, acc => splitLinesJS rest (c :: acc)

/-- Method `RSDFile.parse` of src/rsdfile.ts: split into lines, trim each, drop
the empty ones, then fold the dispatch over the lines.  By construction it
is a total function — there is no failure path for any input. -/
def rsdParse (s : String) : RSDData :=
  let lines := ((splitLinesJS s.toList []).map jsTrim).filter
    (fun l => !l.isEmpty)
  lines.foldl rsdStep rsdEmpty

/-! ## Skeleton parser accessors (src/rsdfile.ts, class HRCFile) -/

/-- Structure `HRCBone` of src/rsdfile.ts.  The `length` field (a float produced by
`parseFloat` and never consulted by parent resolution or any claim) is
outside the embedding and omitted. -/
structure HRCBone where
  name : String
  parentName : String
  resourceCount : Int
  resources : List String
deriving Repr, DecidableEq

/-- Implementation of `String.prototype.toLowerCase`, character by character.  All names
fed to it come from TextDecoder('ascii'), so the ASCII lowercasing of
`Char.toLower` is the exact semantics. -/
def jsToLower (s : String) : String :=
  String.mk (s.data.map Char.toLower)

/-- Method `HRCFile.getBoneParentIndex` of src/rsdfile.ts, as a function of the
parsed bone list: an out-of-range index dereferences `undefined` and
yields −1; a parent name equal to "root" after lowercasing yields −1
without any lookup; otherwise a case-insensitive `findIndex` over the
bones, −1 when nothing matches. -/
def getBoneParentIndex (bones : List HRCBone) (boneIndex : Nat) : Int :=
  match bones[boneIndex]? with
  | none => -1
  | some bone =>
    if jsToLower bone.parentName == "root" then -1
    else
      match bones.findIdx? (fun b => jsToLower b.name == jsToLower bone.parentName) with
      | some j => (j : Int)
      | none => -1

/-! ## Concrete inputs used by the witnesses and counterexamples -/

/-- A minimal valid standard-layout TEX buffer: 236 zero-filled header
bytes with bitDepth = 8 (offset 0x38), width = 1 (0x3C), height = 1
(0x40), bytesPerPixel = 1 (0x68), followed by the single pixel byte 9.
The palette and color-key flags are zero. -/
def texBufOnePixel : List Nat :=
  zeros 56 ++ dword 8 ++ dword 1 ++ dword 1 ++ zeros 36 ++ dword 1 ++
    zeros 128 ++ [9]

/-- An all-zero 200-byte buffer: the format indicator at 0x2C is zero, so
the header parses as the standard layout (the parser's last read ends at
byte 200). -/
def texBufStd : List Nat :=
  zeros 200

/-- A 196-byte buffer whose dword at 0x2C is 2: the header parses as the
alternative layout with numPalettes = 2. -/
def texBufAlt : List Nat :=
  zeros 44 ++ dword 2 ++ zeros 148

/-- A 200-byte standard-layout buffer with width = 5000 (out of range),
height = 1, bitDepth = 8, bytesPerPixel = 1. -/
def texBufWide : List Nat :=
  zeros 56 ++ dword 8 ++ dword 5000 ++ dword 1 ++ zeros 36 ++ dword 1 ++
    zeros 92

/-- A 200-byte standard-layout buffer with valid header fields (1×1,
bitDepth 8, bytesPerPixel 1) but no room for the 236-byte header plus the
one pixel byte. -/
def texBufShort : List Nat :=
  zeros 56 ++ dword 8 ++ dword 1 ++ dword 1 ++ zeros 36 ++ dword 1 ++
    zeros 92

/-- A minimal valid direct-color TEX buffer with bytesPerPixel = 1
(bitDepth 8, 1×1, palette flag clear), whose pixel payload is the byte 7. -/
def texBufBpp1 : List Nat :=
  zeros 56 ++ dword 8 ++ dword 1 ++ dword 1 ++ zeros 36 ++ dword 1 ++
    zeros 128 ++ [7]

/-- A 237-byte standard-layout buffer with valid 1×1×1-byte header whose
color-key-array flag is set (offset 0xBC) with numPalettes = 4 (offset
0x30), but whose single pixel byte ends the buffer: no room is left for
the 4 color-key bytes. -/
def texBufTolerant : List Nat :=
  zeros 48 ++ dword 4 ++ zeros 4 ++ dword 8 ++ dword 1 ++ dword 1 ++
    zeros 36 ++ dword 1 ++ zeros 80 ++ dword 1 ++ zeros 44 ++ [3]

/-- An all-zero pixel format. -/
def zeroPixelFormat : PixelFormat :=
  ⟨0, 0, 0, 0, 0, 0, 0, 0, 0, 0, 0, 0, 0, 0, 0, 0, 0, 0, 0, 0⟩

/-- X1R5G5B5 pixel format: 5 bits per color channel, no alpha bits. -/
def pfX1R5G5B5 : PixelFormat where
  redBits := 5
  greenBits := 5
  blueBits := 5
  alphaBits := 0
  redMask := 31744
  greenMask := 992
  blueMask := 31
  alphaMask := 0
  redShift := 10
  greenShift := 5
  blueShift := 0
  alphaShift := 0
  redLoss := 3
  greenLoss := 3
  blueLoss := 3
  alphaLoss := 8
  redMax := 31
  greenMax := 31
  blueMax := 31
  alphaMax := 0

/-- Header of a decoded 2×1 palette-mode texture with one sub-palette of
two colors (numPalettes = 1, paletteSize = 2; the colorsPerPalette field
deliberately disagrees, holding 7, to show it is not consulted). -/
def texHdrPal : TexHeader where
  version := 1
  colorKeyFlag := 0
  minBitsPerColor := 4
  maxBitsPerColor := 8
  minAlphaBits := 0
  maxAlphaBits := 8
  minBitsPerPixel := 8
  maxBitsPerPixel := 32
  numPalettes := 1
  colorsPerPalette := 7
  bitDepth := 8
  width := 2
  height := 1
  bytesPerRow := 2
  paletteFlag := 1
  bitsPerIndex := 8
  indexedTo8bit := 0
  paletteSize := 2
  colorsPerPaletteAgain := 2
  bitsPerPixel := 8
  bytesPerPixel := 1
  pixelFormat := zeroPixelFormat
  colorKeyArrayFlag := 0
  referenceAlpha := 255
  paletteIndex := 0
  formatIndicator := 0
  headerSize := 236

/-- The decoded 2×1 palette-mode texture of the claim's example: palette
color 0 stored as B=10, G=20, R=30, A=255, color 1 stored as B=1, G=2,
R=3, A=4; pixel bytes 0 and 1. -/
def texPal : TexData :=
  ⟨texHdrPal, some [10, 20, 30, 255, 1, 2, 3, 4], [0, 1], none⟩

/-- Header of a decoded 1×1 direct-color texture, 16-bit X1R5G5B5. -/
def texHdrDirect : TexHeader where
  version := 1
  colorKeyFlag := 0
  minBitsPerColor := 5
  maxBitsPerColor := 8
  minAlphaBits := 0
  maxAlphaBits := 8
  minBitsPerPixel := 16
  maxBitsPerPixel := 32
  numPalettes := 0
  colorsPerPalette := 0
  bitDepth := 16
  width := 1
  height := 1
  bytesPerRow := 2
  paletteFlag := 0
  bitsPerIndex := 0
  indexedTo8bit := 0
  paletteSize := 0
  colorsPerPaletteAgain := 0
  bitsPerPixel := 16
  bytesPerPixel := 2
  pixelFormat := pfX1R5G5B5
  colorKeyArrayFlag := 0
  referenceAlpha := 255
  paletteIndex := 0
  formatIndicator := 0
  headerSize := 236

/-- The decoded 1×1 direct-color texture of the claim's example: its
single little-endian 16-bit pixel is 0x7C00 (bytes 0x00, 0x7C), i.e. the
red channel saturated. -/
def texDirect : TexData :=
  ⟨texHdrDirect, none, [0, 124], none⟩

/-- Header of a decoded 1×1 palette-mode texture whose numPalettes field
is 0 (colorsPerPalette = 1, paletteSize = 5). -/
def texHdrZeroPal : TexHeader where
  version := 1
  colorKeyFlag := 0
  minBitsPerColor := 4
  maxBitsPerColor := 8
  minAlphaBits := 0
  maxAlphaBits := 8
  minBitsPerPixel := 8
  maxBitsPerPixel := 32
  numPalettes := 0
  colorsPerPalette := 1
  bitDepth := 8
  width := 1
  height := 1
  bytesPerRow := 1
  paletteFlag := 1
  bitsPerIndex := 8
  indexedTo8bit := 0
  paletteSize := 5
  colorsPerPaletteAgain := 1
  bitsPerPixel := 8
  bytesPerPixel := 1
  pixelFormat := zeroPixelFormat
  colorKeyArrayFlag := 0
  referenceAlpha := 255
  paletteIndex := 0
  formatIndicator := 0
  headerSize := 236

/-- A decoded palette-mode texture with numPalettes = 0: one pixel byte 0
and two palette colors, stored B=5, G=6, R=7, A=8 and B=50, G=60, R=70,
A=80. -/
def texZeroPal : TexData :=
  ⟨texHdrZeroPal, some [5, 6, 7, 8, 50, 60, 70, 80], [0], none⟩

/-- A 108-byte animation buffer: version 1, frameCount 2, boneCount 0,
rotation order bytes 0,1,2 plus padding, 20 runtime bytes, then
2 × (24 + 12) zero bytes of frame data. -/
def animBuf : List Nat :=
  dword 1 ++ dword 2 ++ dword 0 ++ [0, 1, 2, 0] ++ zeros 20 ++ zeros 72

/-- One all-zero frame carrying exactly one dummy bone rotation. -/
def animZeroFrame : FieldFrame :=
  ⟨⟨0, 0, 0⟩, ⟨0, 0, 0⟩, [⟨0, 0, 0⟩]⟩

/-- The parse of `animBuf`. -/
def animData : FieldAnimationData :=
  ⟨1, 2, 0, (0, 1, 2), [animZeroFrame, animZeroFrame]⟩

/-- The bone list of the claim's skeleton example, extended with a bone
whose parent name dangles: "Hip" with parent "root", "Knee" with parent
"HIP" (case differs from "Hip" on purpose), "Foot" with parent "Pelvis"
(no such bone). -/
def hrcBones : List HRCBone :=
  [⟨"Hip", "root", 1, ["AAAB"]⟩, ⟨"Knee", "HIP", 1, ["AAAC"]⟩,
   ⟨"Foot", "Pelvis", 0, []⟩]

/-! ## Helper lemmas -/

/-- A `mapM` over `Option` succeeds pointwise. -/
theorem mapM_eq_some_of {α β : Type} (f : α → Option β) (g : α → β) :
    ∀ l : List α, (∀ a ∈ l, f a = some (g a)) → l.mapM f = some (l.map g) := by
  intro l h
  induction l with
  | nil => rfl
  | cons a as ih =>
    rw [List.mapM_cons, h a (List.mem_cons_self a as)]
    rw [ih (fun x hx => h x (List.mem_cons_of_mem a hx))]
    rfl

/-- Every element of `readRots` counts: the list has exactly the requested
length. -/
theorem readRots_length (buf : List Nat) :
    ∀ n off l, readRots buf off n = some l → l.length = n := by
  intro n
  induction n with
  | zero =>
    intro off l h
    simp only [readRots, Option.some.injEq] at h
    simp [← h]
  | succ n ih =>
    intro off l h
    simp only [readRots, Option.bind_eq_some, Option.map_eq_some'] at h
    obtain ⟨r, _, rest, hrest, rfl⟩ := h
    simp [ih (off + 12) rest hrest]

/-- Shape of the frame loop: exactly `n` frames, each carrying exactly
`boneCount` bone rotations. -/
theorem parseFrames_shape (buf : List Nat) (bc : Nat) :
    ∀ n off l, parseFrames buf bc off n = some l →
      l.length = n ∧ ∀ f ∈ l, f.boneRotations.length = bc := by
  intro n
  induction n with
  | zero =>
    intro off l h
    simp only [parseFrames, Option.some.injEq] at h
    simp [← h]
  | succ n ih =>
    intro off l h
    simp only [parseFrames, Option.bind_eq_some, Option.map_eq_some'] at h
    obtain ⟨rr, _, rt, _, brs, hbrs, rest, hrest, rfl⟩ := h
    have hr := ih (off + 24 + 12 * bc) rest hrest
    refine ⟨by simp [hr.1], ?_⟩
    intro f hf
    rcases List.mem_cons.mp hf with rfl | hf
    · exact readRots_length buf bc (off + 24) brs hbrs
    · exact hr.2 f hf

/-! ## Claim C1 -/

/-- Claim C1 (code bug): decoding the valid standard-layout buffer
`texBufOnePixel` succeeds, but re-encoding throws instead of producing any
buffer, byte-identical or not: `writeFile`'s zero-filled gaps disagree
with the parser's layout (12 bytes after colorKeyFlag where the parser
skips 8, and 24 + 4 + 20 bytes around paletteIndex where the parser skips
36), so its running offset reaches 252 although the allocation budgets
0xEC = 236 header bytes, and the pixel-data block copy overruns the end
of the allocation. -/
theorem writeFile_overruns_on_roundtrip :
    (texDecode texBufOnePixel).map writeFile = .ok none := by
  rfl

/-! ## Claim C2 -/

/-- Claim C2: header-variant detection.  Whenever the header parser
succeeds, the format indicator it kept is the 4-byte field at offset 0x2C;
if that field is zero the buffer was parsed as the standard layout (header
size 0xEC = 236, with numPalettes read from the following dword at 0x30),
and if it is non-zero the parser rewound 4 bytes and those same bytes are
the palette-count field (alternative layout, header size 0xE8 = 232). -/
theorem texHeaderParse_variant_detection (buf : List Nat) (h : TexHeader)
    (hp : texHeaderParse buf = some h) :
    h.formatIndicator = u32 buf 44 ∧
    (u32 buf 44 = 0 → h.headerSize = 236 ∧ h.numPalettes = u32 buf 48) ∧
    (u32 buf 44 ≠ 0 → h.headerSize = 232 ∧ h.numPalettes = u32 buf 44) := by
  by_cases hfi : u32 buf 44 = 0 <;>
    simp only [texHeaderParse, hfi, if_true, if_false, ite_true, ite_false] at hp <;>
    split at hp <;> try exact Option.noConfusion hp
  · split at hp
    · exact Option.noConfusion hp
    · obtain rfl := (Option.some.injEq _ _).mp hp
      refine ⟨hfi.symm, fun _ => ⟨rfl, rfl⟩, fun hne => absurd hfi hne⟩
  · split at hp
    · exact Option.noConfusion hp
    · obtain rfl := (Option.some.injEq _ _).mp hp
      exact ⟨rfl, fun hz => absurd hz hfi, fun _ => ⟨rfl, rfl⟩⟩

/-- Witness for claim C2: the all-zero 200-byte buffer parses as the
standard layout (header size 236), and the buffer with 2 at offset 0x2C
parses as the alternative layout (header size 232) with that same value
as its palette count. -/
theorem texHeaderParse_variant_detection_witness :
    (texHeaderParse texBufStd).map (fun h => (h.headerSize, h.numPalettes)) =
      some (236, 0) ∧
    (texHeaderParse texBufAlt).map (fun h => (h.headerSize, h.numPalettes)) =
      some (232, 2) := by
  constructor
  · obtain ⟨h, e⟩ := Option.isSome_iff_exists.mp
      (show (texHeaderParse texBufStd).isSome by decide)
    have hc := texHeaderParse_variant_detection texBufStd h e
    have h0 : u32 texBufStd 44 = 0 := by decide
    have h48 : u32 texBufStd 48 = 0 := by decide
    rw [e, Option.map_some']
    rw [(hc.2.1 h0).1, (hc.2.1 h0).2, h48]
  · obtain ⟨h, e⟩ := Option.isSome_iff_exists.mp
      (show (texHeaderParse texBufAlt).isSome by decide)
    have hc := texHeaderParse_variant_detection texBufAlt h e
    have h2 : u32 texBufAlt 44 = 2 := by decide
    rw [e, Option.map_some']
    rw [(hc.2.2 (by rw [h2]; exact two_ne_zero)).1,
        (hc.2.2 (by rw [h2]; exact two_ne_zero)).2, h2]

/-! ## Claim C7 -/

/-- Claim C7: every successfully parsed animation has exactly `nFrames`
frames (clamped below at 0 for a negative declared count), and every frame
carries exactly `max(boneCount, 1)` bone-rotation triples — one dummy
triple even when the declared bone count is zero. -/
theorem animParse_frame_shape (buf : List Nat) (d : FieldAnimationData)
    (hp : animParse buf = some d) :
    d.frames.length = d.nFrames.toNat ∧
    ∀ f ∈ d.frames, f.boneRotations.length = max d.nBones.toNat 1 := by
  simp only [animParse] at hp
  split at hp
  · exact Option.noConfusion hp
  · rw [Option.map_eq_some'] at hp
    obtain ⟨frames, hf, rfl⟩ := hp
    have hs := parseFrames_shape buf _ _ _ frames hf
    refine ⟨hs.1, ?_⟩
    intro f hfm
    rw [hs.2 f hfm]
    by_cases hb : 0 < toInt32 (u32 buf 8) <;> simp only [hb, if_true, if_false,
      ite_true, ite_false] <;> omega

/-- Witness for claim C7: the buffer declaring frameCount = 2 and
boneCount = 0 parses into 2 frames of exactly 1 dummy bone rotation each. -/
theorem animParse_frame_shape_witness :
    animParse animBuf = some animData ∧ animData.frames.length = 2 ∧
    ∀ f ∈ animData.frames, f.boneRotations.length = 1 := by
  have hp : animParse animBuf = some animData := by decide
  have hs := animParse_frame_shape animBuf animData hp
  refine ⟨hp, ?_, ?_⟩
  · rw [hs.1]; decide
  · intro f hf
    rw [hs.2 f hf]; decide

/-! ## Claim C8 -/

/-- Claim C8: the resource descriptor parser is a total function with no
failure path (it is a Lean `def` into `RSDData`, not an `Option`): on the
empty input it returns the structure with every string field empty,
texture count zero and texture list empty, and a line `NTEX=v` whose
right-hand side fails to parse as a decimal integer sets the texture
count to 0 rather than failing. -/
theorem rsdParse_never_fails :
    rsdParse "" = ⟨"", "", "", "", 0, []⟩ ∧
    ∀ (d : RSDData) (v : List Char), parseIntJS v = none →
      (rsdStep d ('N' :: 'T' :: 'E' :: 'X' :: '=' :: v)).numTextures = 0 := by
  constructor
  · rfl
  · intro d v hv
    simp only [rsdStep, List.isPrefixOf, List.drop]
    norm_num
    rw [hv]
    rfl

/-- Witness for claim C8: a concrete garbage NTEX right-hand side. -/
theorem rsdParse_never_fails_witness :
    (rsdParse "").textures = [] ∧
    (rsdStep rsdEmpty ('N' :: 'T' :: 'E' :: 'X' :: '=' :: ['a', 'b', 'c'])).numTextures
      = 0 := by
  refine ⟨?_, rsdParse_never_fails.2 rsdEmpty ['a', 'b', 'c'] (by decide)⟩
  rw [rsdParse_never_fails.1]

/-! ## Claim C9 -/

/-- Claim C9: parent-index resolution.  For a bone present at `boneIndex`,
a parent name that lowercases to "root" resolves to −1 without lookup; any
other parent name is matched case-insensitively against the bone names,
−1 when no bone matches and the matched index otherwise. -/
theorem getBoneParentIndex_resolution (bones : List HRCBone) (i : Nat)
    (b : HRCBone) (hb : bones[i]? = some b) :
    (jsToLower b.parentName = "root" → getBoneParentIndex bones i = -1) ∧
    (jsToLower b.parentName ≠ "root" →
      (bones.findIdx? (fun c => jsToLower c.name == jsToLower b.parentName) = none →
        getBoneParentIndex bones i = -1) ∧
      ∀ j, bones.findIdx? (fun c => jsToLower c.name == jsToLower b.parentName) = some j →
        getBoneParentIndex bones i = (j : Int)) := by
  refine ⟨fun hroot => ?_, fun hroot => ⟨fun hnone => ?_, fun j hj => ?_⟩⟩
  · simp [getBoneParentIndex, hb, hroot]
  · simp [getBoneParentIndex, hb, hroot, hnone]
  · simp [getBoneParentIndex, hb, hroot, hj]

/-- Witness for claim C9: in the bone list Hip(parent root),
Knee(parent HIP), Foot(parent Pelvis), Hip resolves to −1, Knee resolves
to Hip's index 0 despite the case difference, and the dangling Pelvis
reference resolves to −1 without failing. -/
theorem getBoneParentIndex_resolution_witness :
    getBoneParentIndex hrcBones 0 = -1 ∧ getBoneParentIndex hrcBones 1 = 0 ∧
    getBoneParentIndex hrcBones 2 = -1 := by
  refine ⟨?_, ?_, ?_⟩
  · exact (getBoneParentIndex_resolution hrcBones 0 ⟨"Hip", "root", 1, ["AAAB"]⟩
      (by decide)).1 (by decide)
  · exact (getBoneParentIndex_resolution hrcBones 1 ⟨"Knee", "HIP", 1, ["AAAC"]⟩
      (by decide)).2 (by decide) |>.2 0 (by decide)
  · exact (getBoneParentIndex_resolution hrcBones 2 ⟨"Foot", "Pelvis", 0, []⟩
      (by decide)).2 (by decide) |>.1 (by decide)

/-! ## Claim C3 -/

/-- Claim C3: whenever the parsed header has width or height outside
(0, 4096], or bitDepth outside (0, 32], or bytesPerPixel outside [1, 4],
decoding fails with the malformed-header condition carrying the offending
field values (so no value is ever silently coerced: no decoded structure
is produced at all). -/
theorem texDecode_malformed_header (buf : List Nat) (h : TexHeader)
    (hp : texHeaderParse buf = some h)
    (hbad : ¬(0 < h.width ∧ h.width ≤ 4096) ∨ ¬(0 < h.height ∧ h.height ≤ 4096) ∨
      ¬(0 < h.bitDepth ∧ h.bitDepth ≤ 32) ∨
      ¬(0 < h.bytesPerPixel ∧ h.bytesPerPixel ≤ 4)) :
    texDecode buf =
      .error (.malformedHeader h.width h.height h.bitDepth h.bytesPerPixel) := by
  have hval : isValidTexData h = false := by
    rcases Bool.eq_false_or_eq_true (isValidTexData h) with hv | hv
    · exfalso
      simp only [isValidTexData, Bool.and_eq_true, decide_eq_true_eq] at hv
      tauto
    · exact hv
  simp [texDecode, hp, hval]

/-- Witness for claim C3: a header with width 5000 is rejected with the
malformed-header condition naming 5000×1, bitDepth 8, bytesPerPixel 1. -/
theorem texDecode_malformed_header_witness :
    texDecode texBufWide = .error (.malformedHeader 5000 1 8 1) := by
  obtain ⟨h, e⟩ := Option.isSome_iff_exists.mp
    (show (texHeaderParse texBufWide).isSome by decide)
  have hfields : (texHeaderParse texBufWide).map
      (fun x => (x.width, x.height, x.bitDepth, x.bytesPerPixel)) =
        some (5000, 1, 8, 1) := by decide
  rw [e, Option.map_some'] at hfields
  obtain ⟨hw, hh, hb, hbp⟩ : h.width = 5000 ∧ h.height = 1 ∧ h.bitDepth = 8 ∧
      h.bytesPerPixel = 1 := by
    simpa [Prod.ext_iff] using (Option.some.injEq _ _).mp hfields
  have hm := texDecode_malformed_header texBufWide h e (Or.inl (by omega))
  rw [hw, hh, hb, hbp] at hm
  exact hm

/-! ## Claim C4 -/

/-- Claim C4: with a parsed, valid header, a buffer shorter than header
plus palette (when the palette flag is set) plus the mandatory pixel
payload fails with a truncation condition, while a buffer at least that
long decodes successfully — even when it is too short only for the
optional color-key array, which is then silently omitted. -/
theorem texDecode_truncation (buf : List Nat) (h : TexHeader)
    (hp : texHeaderParse buf = some h) (hv : isValidTexData h = true) :
    (buf.length < h.headerSize +
        (if h.paletteFlag ≠ 0 then h.paletteSize * 4 else 0) +
        h.width * h.height * h.bytesPerPixel →
      ∃ o, texDecode buf = .error (.truncated o buf.length)) ∧
    (h.headerSize + (if h.paletteFlag ≠ 0 then h.paletteSize * 4 else 0) +
        h.width * h.height * h.bytesPerPixel ≤ buf.length →
      ∃ t, texDecode buf = .ok t ∧ t.hdr = h ∧
        (h.colorKeyArrayFlag ≠ 0 ∧
            buf.length < h.headerSize +
              (if h.paletteFlag ≠ 0 then h.paletteSize * 4 else 0) +
              h.width * h.height * h.bytesPerPixel + h.numPalettes →
          t.colorKeyArray = none)) := by
  by_cases hpf : h.paletteFlag ≠ 0
  · rw [if_pos hpf]
    constructor
    · intro hlt
      by_cases hc1 : buf.length < h.headerSize + h.paletteSize * 4
      · exact ⟨h.headerSize, by simp [texDecode, hp, hv, hpf, hc1]⟩
      · refine ⟨h.headerSize + h.paletteSize * 4, ?_⟩
        simp only [texDecode, hp, hv, if_true, if_pos hpf, if_neg hc1,
          texReadPixels]
        rw [if_pos (by omega)]
    · intro hge
      have hc1 : ¬ buf.length < h.headerSize + h.paletteSize * 4 := by omega
      have hc2 : ¬ buf.length < h.headerSize + h.paletteSize * 4 +
          h.width * h.height * h.bytesPerPixel := by omega
      refine ⟨⟨h, some ((buf.drop h.headerSize).take (h.paletteSize * 4)),
        ((buf.drop (h.headerSize + h.paletteSize * 4)).take
          (h.width * h.height * h.bytesPerPixel)),
        if h.colorKeyArrayFlag ≠ 0 ∧ h.headerSize + h.paletteSize * 4 +
            h.width * h.height * h.bytesPerPixel + h.numPalettes ≤ buf.length
        then some ((buf.drop (h.headerSize + h.paletteSize * 4 +
          h.width * h.height * h.bytesPerPixel)).take h.numPalettes)
        else none⟩, ?_, rfl, ?_⟩
      · simp only [texDecode, hp, hv, if_true, if_pos hpf, if_neg hc1,
          texReadPixels, if_neg hc2]
      · rintro ⟨hck, hlt2⟩
        rw [if_neg (by rintro ⟨h1, h2⟩; omega)]
  · rw [if_neg hpf]
    constructor
    · intro hlt
      refine ⟨h.headerSize, ?_⟩
      simp only [texDecode, hp, hv, if_true, if_neg hpf, texReadPixels]
      rw [if_pos (by omega)]
    · intro hge
      have hc2 : ¬ buf.length < h.headerSize +
          h.width * h.height * h.bytesPerPixel := by omega
      refine ⟨⟨h, none,
        ((buf.drop h.headerSize).take (h.width * h.height * h.bytesPerPixel)),
        if h.colorKeyArrayFlag ≠ 0 ∧ h.headerSize +
            h.width * h.height * h.bytesPerPixel + h.numPalettes ≤ buf.length
        then some ((buf.drop (h.headerSize +
          h.width * h.height * h.bytesPerPixel)).take h.numPalettes)
        else none⟩, ?_, rfl, ?_⟩
      · simp only [texDecode, hp, hv, if_true, if_neg hpf, texReadPixels,
          if_neg hc2]
      · rintro ⟨hck, hlt2⟩
        rw [if_neg (by rintro ⟨h1, h2⟩; omega)]

/-- Witness for claim C4: the 200-byte buffer with a valid 1×1×1-byte
header (required length 236 + 1 = 237) fails with a truncation condition,
while the 237-byte buffer whose color-key flag is set but whose color-key
bytes are missing decodes fine with the color-key array omitted. -/
theorem texDecode_truncation_witness :
    (∃ o, texDecode texBufShort = .error (.truncated o texBufShort.length)) ∧
    (∃ t, texDecode texBufTolerant = .ok t ∧ t.colorKeyArray = none) := by
  constructor
  · obtain ⟨h, e⟩ := Option.isSome_iff_exists.mp
      (show (texHeaderParse texBufShort).isSome by decide)
    have hv : isValidTexData h = true := by
      have hm : (texHeaderParse texBufShort).map isValidTexData = some true := by
        decide
      rw [e, Option.map_some'] at hm
      exact (Option.some.injEq _ _).mp hm
    have hreq : (texHeaderParse texBufShort).map (fun x => x.headerSize +
        (if x.paletteFlag ≠ 0 then x.paletteSize * 4 else 0) +
        x.width * x.height * x.bytesPerPixel) = some 237 := by decide
    rw [e, Option.map_some'] at hreq
    have hreq2 := (Option.some.injEq _ _).mp hreq
    exact (texDecode_truncation texBufShort h e hv).1
      (by rw [hreq2]; decide)
  · obtain ⟨h, e⟩ := Option.isSome_iff_exists.mp
      (show (texHeaderParse texBufTolerant).isSome by decide)
    have hv : isValidTexData h = true := by
      have hm : (texHeaderParse texBufTolerant).map isValidTexData = some true := by
        decide
      rw [e, Option.map_some'] at hm
      exact (Option.some.injEq _ _).mp hm
    have hreq : (texHeaderParse texBufTolerant).map (fun x => (x.headerSize +
        (if x.paletteFlag ≠ 0 then x.paletteSize * 4 else 0) +
        x.width * x.height * x.bytesPerPixel, x.colorKeyArrayFlag,
        x.numPalettes)) = some (237, 1, 4) := by decide
    rw [e, Option.map_some'] at hreq
    obtain ⟨hreq2, hck, hnp⟩ : h.headerSize +
        (if h.paletteFlag ≠ 0 then h.paletteSize * 4 else 0) +
        h.width * h.height * h.bytesPerPixel = 237 ∧
        h.colorKeyArrayFlag = 1 ∧ h.numPalettes = 4 := by
      simpa [Prod.ext_iff] using (Option.some.injEq _ _).mp hreq
    obtain ⟨t, ht, _, hcka⟩ := (texDecode_truncation texBufTolerant h e hv).2
      (by rw [hreq2]; decide)
    exact ⟨t, ht, hcka ⟨by omega, by rw [hreq2, hnp]; decide⟩⟩

/-! ## Claim C5 -/

/-- Claim C5: palette-mode pixel expansion.  For a decoded palette-mode
texture with a positive palette count, each pixel byte selects a color
whose sub-palette size is recomputed as `paletteSize / numPalettes`
(floor) — the header's colors-per-palette field is not consulted — and the
color's four stored bytes B,G,R,A are emitted reordered as R,G,B,A (stored
bytes 2, 1, 0, 3). -/
theorem getPixels_palette_mode (t : TexData) (pal : List Nat)
    (paletteIndex : Nat) (hflag : t.hdr.paletteFlag ≠ 0)
    (hpal : t.palette = some pal) (hnp : 0 < t.hdr.numPalettes)
    (hlen : t.hdr.width * t.hdr.height ≤ t.pixels.length) :
    getPixels t paletteIndex =
      some ((List.range (t.hdr.width * t.hdr.height)).flatMap (fun i =>
        [pal.getD (t.pixels.getD i 0 * 4 +
            paletteIndex * (t.hdr.paletteSize / t.hdr.numPalettes) * 4 + 2) 0,
         pal.getD (t.pixels.getD i 0 * 4 +
            paletteIndex * (t.hdr.paletteSize / t.hdr.numPalettes) * 4 + 1) 0,
         pal.getD (t.pixels.getD i 0 * 4 +
            paletteIndex * (t.hdr.paletteSize / t.hdr.numPalettes) * 4) 0,
         pal.getD (t.pixels.getD i 0 * 4 +
            paletteIndex * (t.hdr.paletteSize / t.hdr.numPalettes) * 4 + 3) 0])) := by
  simp only [getPixels, if_pos hflag, hpal]
  congr 1
  apply List.flatMap_congr
  intro i hi
  have hi2 : i < t.pixels.length := lt_of_lt_of_le (List.mem_range.mp hi) hlen
  simp only [paletteQuad, List.getElem?_eq_getElem hi2,
    actualColorsPerPalette, if_pos hnp]
  rw [List.getD_eq_getElem t.pixels 0 hi2]

/-- Witness for claim C5: the 2×1 texture with palette entry
B=10, G=20, R=30, A=255 at index 0 (and B=1, G=2, R=3, A=4 at index 1)
and pixel bytes 0, 1 expands to RGBA 30,20,10,255 then 3,2,1,4; its
colors-per-palette header field holds the wrong value 7 and is ignored. -/
theorem getPixels_palette_mode_witness :
    texPal.hdr.paletteFlag ≠ 0 ∧ texPal.hdr.numPalettes = 1 ∧
    texPal.hdr.colorsPerPalette = 7 ∧
    getPixels texPal 0 = some [30, 20, 10, 255, 3, 2, 1, 4] := by
  refine ⟨by decide, by decide, by decide, ?_⟩
  have h := getPixels_palette_mode texPal [10, 20, 30, 255, 1, 2, 3, 4] 0
    (by decide) (by decide) (by decide) (by decide)
  rw [h]
  decide

/-! ## Claim C10 -/

/-- Claim C10: when a decoded palette-mode texture declares
numPalettes = 0, pixel expansion never divides by the palette count: the
sub-palette size falls back to the header's colorsPerPalette field, and
expansion proceeds with that value. -/
theorem getPixels_zero_palettes_guard (t : TexData) (pal : List Nat)
    (paletteIndex : Nat) (hflag : t.hdr.paletteFlag ≠ 0)
    (hpal : t.palette = some pal) (hnp : t.hdr.numPalettes = 0)
    (hlen : t.hdr.width * t.hdr.height ≤ t.pixels.length) :
    actualColorsPerPalette t.hdr = t.hdr.colorsPerPalette ∧
    getPixels t paletteIndex =
      some ((List.range (t.hdr.width * t.hdr.height)).flatMap (fun i =>
        [pal.getD (t.pixels.getD i 0 * 4 +
            paletteIndex * t.hdr.colorsPerPalette * 4 + 2) 0,
         pal.getD (t.pixels.getD i 0 * 4 +
            paletteIndex * t.hdr.colorsPerPalette * 4 + 1) 0,
         pal.getD (t.pixels.getD i 0 * 4 +
            paletteIndex * t.hdr.colorsPerPalette * 4) 0,
         pal.getD (t.pixels.getD i 0 * 4 +
            paletteIndex * t.hdr.colorsPerPalette * 4 + 3) 0])) := by
  have hacp : actualColorsPerPalette t.hdr = t.hdr.colorsPerPalette := by
    simp [actualColorsPerPalette, hnp]
  refine ⟨hacp, ?_⟩
  simp only [getPixels, if_pos hflag, hpal]
  congr 1
  apply List.flatMap_congr
  intro i hi
  have hi2 : i < t.pixels.length := lt_of_lt_of_le (List.mem_range.mp hi) hlen
  simp only [paletteQuad, List.getElem?_eq_getElem hi2, hacp]
  rw [List.getD_eq_getElem t.pixels 0 hi2]

/-- Witness for claim C10: the numPalettes = 0 texture expands without
failure; with colorsPerPalette = 1 and palette selector 1 the fallback
offset 1 × 1 × 4 selects the second stored color, emitted as 70,60,50,80. -/
theorem getPixels_zero_palettes_guard_witness :
    texZeroPal.hdr.numPalettes = 0 ∧
    actualColorsPerPalette texZeroPal.hdr = 1 ∧
    getPixels texZeroPal 1 = some [70, 60, 50, 80] := by
  have h := getPixels_zero_palettes_guard texZeroPal
    [5, 6, 7, 8, 50, 60, 70, 80] 1 (by decide) (by decide) (by decide)
    (by decide)
  refine ⟨by decide, h.1.trans (by decide), ?_⟩
  rw [h.2]
  decide

/-! ## Claim C6 -/

/-- Entries read out of a byte buffer are bytes (the default 0 included). -/
theorem getD_byte {l : List Nat} (h : ∀ b ∈ l, b < 256) (i : Nat) :
    l.getD i 0 < 256 := by
  rcases hlt : l[i]? with _ | b
  · simp [List.getD_eq_getElem?_getD, hlt]
  · rw [List.getD_eq_getElem?_getD, hlt]
    exact h b (List.getElem?_mem hlt)

/-- A little-endian read of `n` bytes is below `256 ^ n`. -/
theorem leRead_lt {l : List Nat} (hb : ∀ b ∈ l, b < 256) :
    ∀ n off, leRead l off n < 256 ^ n := by
  intro n
  induction n with
  | zero => intro off; simp [leRead]
  | succ n ih =>
    intro off
    have h1 := getD_byte hb off
    have h2 := ih (off + 1)
    have hp : (256 : Nat) ^ (n + 1) = 256 ^ n * 256 := pow_succ 256 n
    simp only [leRead]
    rw [hp]
    omega

/-- Bridge between the JS 32-bit channel computation and the claim's plain
formula: for a 32-bit value and mask, a channel bit count of at most 8 and
a shift that keeps the channel inside the 32-bit word, the JS result is
exactly `((value &&& mask) >>> shift) <<< (8 - bits)` reduced to a byte. -/
theorem jsChannelByte_eq (value mask shift bits : Nat)
    (hval : value < 4294967296) (hmask : mask < 4294967296)
    (hbits : bits ≤ 8) (hshift : shift < 32) (hsb : shift + bits ≤ 32) :
    jsChannelByte value mask shift bits =
      (((value &&& mask) >>> shift) <<< (8 - bits)) % 256 := by
  have hv : value % 4294967296 = value := Nat.mod_eq_of_lt hval
  have hm : mask % 4294967296 = mask := Nat.mod_eq_of_lt hmask
  have hs : shift % 4294967296 % 32 = shift := by
    rw [Nat.mod_eq_of_lt (by omega : shift < 4294967296)]
    exact Nat.mod_eq_of_lt hshift
  have hc : (4294967304 - bits % 4294967296) % 4294967296 % 32 = 8 - bits := by
    rw [Nat.mod_eq_of_lt (by omega : bits < 4294967296)]
    have h1 : 4294967304 - bits = 4294967296 + (8 - bits) := by omega
    rw [h1, Nat.add_mod_left]
    rw [Nat.mod_eq_of_lt (by omega : 8 - bits < 4294967296)]
    exact Nat.mod_eq_of_lt (by omega)
  simp only [jsChannelByte, hv, hm, hs, hc]
  by_cases hx : value &&& mask < 2147483648
  · rw [if_pos hx]
    exact Nat.mod_mod_of_dvd _ (by norm_num)
  · rw [if_neg hx]
    rw [Nat.mod_mod_of_dvd _ (by norm_num : (256 : Nat) ∣ 4294967296)]
    rw [Nat.shiftLeft_eq, Nat.shiftLeft_eq, Nat.add_mul]
    have hfac : (4294967296 - 2 ^ (32 - shift)) * 2 ^ (8 - bits) =
        256 * ((2 ^ shift - 1) * 2 ^ (32 - shift + (8 - bits) - 8)) := by
      have h32 : (4294967296 : Nat) = 2 ^ shift * 2 ^ (32 - shift) := by
        rw [← pow_add, show shift + (32 - shift) = 32 by omega]
        norm_num
      calc (4294967296 - 2 ^ (32 - shift)) * 2 ^ (8 - bits)
          = (2 ^ shift * 2 ^ (32 - shift) - 2 ^ (32 - shift)) * 2 ^ (8 - bits) := by
            rw [← h32]
        _ = ((2 ^ shift - 1) * 2 ^ (32 - shift)) * 2 ^ (8 - bits) := by
            congr 1
            rw [Nat.sub_mul, one_mul]
        _ = (2 ^ shift - 1) * (2 ^ (32 - shift) * 2 ^ (8 - bits)) := by ring
        _ = (2 ^ shift - 1) * (2 ^ 8 * 2 ^ (32 - shift + (8 - bits) - 8)) := by
            rw [← pow_add, ← pow_add]
            congr 2
            omega
        _ = 256 * ((2 ^ shift - 1) * 2 ^ (32 - shift + (8 - bits) - 8)) := by
            ring
    rw [hfac, Nat.add_mul_mod_self_left]

/-- Counterexample to claim C6 as stated: `texBufBpp1` decodes to a valid
direct-color texture with bytesPerPixel = 1, but pixel expansion on it
throws (a RangeError from `getUint32` on a 1-byte DataView) instead of
reading the pixel and computing any channel, because the code only
special-cases bytesPerPixel = 2 and otherwise calls `getUint32`. -/
theorem getPixels_direct_bpp1_fails :
    (texDecode texBufBpp1).map (fun t => getPixels t 0) = .ok none := by
  rfl

/-- Claim C6, amended: for a decoded direct-color texture whose
bytesPerPixel is 2 or 4 (for 1 or 3 pixel expansion throws instead, see
the counterexample), pixel expansion reads each pixel as a little-endian
unsigned integer of bytesPerPixel bytes and emits each channel as
`((value & channelMask) >> channelShift) << (8 − channelBits)` reduced to
a byte, with alpha 255 when the format declares zero alpha bits; the
channel formula applies whenever the declared channel layout is sane
(bit count at most 8 and shift keeping the channel inside 32 bits, which
saturate the JS 32-bit operator semantics). -/
theorem getPixels_direct_mode (t : TexData) (paletteIndex : Nat)
    (hflag : t.hdr.paletteFlag = 0)
    (hbpp : t.hdr.bytesPerPixel = 2 ∨ t.hdr.bytesPerPixel = 4)
    (hbytes : ∀ b ∈ t.pixels, b < 256)
    (hlen : t.hdr.width * t.hdr.height * t.hdr.bytesPerPixel ≤ t.pixels.length)
    (hr : t.hdr.pixelFormat.redMask < 4294967296 ∧
      t.hdr.pixelFormat.redBits ≤ 8 ∧ t.hdr.pixelFormat.redShift < 32 ∧
      t.hdr.pixelFormat.redShift + t.hdr.pixelFormat.redBits ≤ 32)
    (hg : t.hdr.pixelFormat.greenMask < 4294967296 ∧
      t.hdr.pixelFormat.greenBits ≤ 8 ∧ t.hdr.pixelFormat.greenShift < 32 ∧
      t.hdr.pixelFormat.greenShift + t.hdr.pixelFormat.greenBits ≤ 32)
    (hb : t.hdr.pixelFormat.blueMask < 4294967296 ∧
      t.hdr.pixelFormat.blueBits ≤ 8 ∧ t.hdr.pixelFormat.blueShift < 32 ∧
      t.hdr.pixelFormat.blueShift + t.hdr.pixelFormat.blueBits ≤ 32)
    (ha : t.hdr.pixelFormat.alphaBits ≠ 0 →
      t.hdr.pixelFormat.alphaMask < 4294967296 ∧
      t.hdr.pixelFormat.alphaBits ≤ 8 ∧ t.hdr.pixelFormat.alphaShift < 32 ∧
      t.hdr.pixelFormat.alphaShift + t.hdr.pixelFormat.alphaBits ≤ 32) :
    getPixels t paletteIndex =
      some ((List.range (t.hdr.width * t.hdr.height)).flatMap (fun i =>
        [(((leRead t.pixels (i * t.hdr.bytesPerPixel) t.hdr.bytesPerPixel &&&
              t.hdr.pixelFormat.redMask) >>> t.hdr.pixelFormat.redShift) <<<
              (8 - t.hdr.pixelFormat.redBits)) % 256,
         (((leRead t.pixels (i * t.hdr.bytesPerPixel) t.hdr.bytesPerPixel &&&
              t.hdr.pixelFormat.greenMask) >>> t.hdr.pixelFormat.greenShift) <<<
              (8 - t.hdr.pixelFormat.greenBits)) % 256,
         (((leRead t.pixels (i * t.hdr.bytesPerPixel) t.hdr.bytesPerPixel &&&
              t.hdr.pixelFormat.blueMask) >>> t.hdr.pixelFormat.blueShift) <<<
              (8 - t.hdr.pixelFormat.blueBits)) % 256,
         if t.hdr.pixelFormat.alphaBits = 0 then 255
         else (((leRead t.pixels (i * t.hdr.bytesPerPixel)
              t.hdr.bytesPerPixel &&& t.hdr.pixelFormat.alphaMask) >>>
              t.hdr.pixelFormat.alphaShift) <<<
              (8 - t.hdr.pixelFormat.alphaBits)) % 256])) := by
  have hvlt : ∀ i, leRead t.pixels (i * t.hdr.bytesPerPixel)
      t.hdr.bytesPerPixel < 4294967296 := by
    intro i
    rcases hbpp with h2 | h4
    · rw [h2]
      exact lt_of_lt_of_le (leRead_lt hbytes 2 _) (by norm_num)
    · rw [h4]
      exact lt_of_lt_of_le (leRead_lt hbytes 4 _) (by norm_num)
  have hdpv : ∀ i, i < t.hdr.width * t.hdr.height →
      directPixelValue t.pixels (i * t.hdr.bytesPerPixel) t.hdr.bytesPerPixel =
        some (leRead t.pixels (i * t.hdr.bytesPerPixel) t.hdr.bytesPerPixel) := by
    intro i hi2
    have hoff : i * t.hdr.bytesPerPixel + t.hdr.bytesPerPixel ≤
        t.pixels.length := by
      have hstep : (i + 1) * t.hdr.bytesPerPixel ≤
          t.hdr.width * t.hdr.height * t.hdr.bytesPerPixel :=
        Nat.mul_le_mul_right _ (by omega)
      have heq : (i + 1) * t.hdr.bytesPerPixel =
          i * t.hdr.bytesPerPixel + t.hdr.bytesPerPixel := by ring
      omega
    unfold directPixelValue
    rw [if_pos hoff]
    rcases hbpp with h2 | h4
    · rw [h2]
      norm_num
    · rw [h4]
      norm_num
  have hpoint : ∀ i ∈ List.range (t.hdr.width * t.hdr.height),
      directQuad t i = some (directQuadTotal t i) := by
    intro i hi
    have hi2 := List.mem_range.mp hi
    simp only [directQuad, directQuadTotal, hdpv i hi2, Option.map_some',
      Option.getD_some]
  unfold getPixels
  rw [hflag, if_neg (fun hcon => hcon rfl)]
  rw [mapM_eq_some_of (directQuad t) (directQuadTotal t)
    (List.range (t.hdr.width * t.hdr.height)) hpoint]
  rw [Option.map_some']
  congr 1
  rw [show ∀ (l : List Nat) (f : Nat → List Nat),
    l.flatMap f = (l.map f).flatten from fun _ _ => rfl]
  congr 1
  apply List.map_congr_left
  intro i hi
  have hi2 := List.mem_range.mp hi
  simp only [directQuadTotal, hdpv i hi2, Option.getD_some]
  have hv := hvlt i
  rw [jsChannelByte_eq _ _ _ _ hv hr.1 hr.2.1 hr.2.2.1 hr.2.2.2]
  rw [jsChannelByte_eq _ _ _ _ hv hg.1 hg.2.1 hg.2.2.1 hg.2.2.2]
  rw [jsChannelByte_eq _ _ _ _ hv hb.1 hb.2.1 hb.2.2.1 hb.2.2.2]
  by_cases hab : t.hdr.pixelFormat.alphaBits = 0
  · rw [if_neg (by omega), if_pos hab]
  · obtain ⟨ha1, ha2, ha3, ha4⟩ := ha hab
    rw [if_pos (by omega), if_neg hab]
    rw [jsChannelByte_eq _ _ _ _ hv ha1 ha2 ha3 ha4]

/-- Witness for the amended claim C6: the 1×1 X1R5G5B5 texture whose
16-bit pixel is 0x7C00 (red mask 0x7C00, shift 10, 5 bits) expands to
red = 0xF8 = 248 (31 << 3), green = blue = 0, alpha = 255 (zero declared
alpha bits). -/
theorem getPixels_direct_mode_witness :
    texDirect.hdr.bytesPerPixel = 2 ∧
    leRead texDirect.pixels 0 2 = 31744 ∧
    getPixels texDirect 0 = some [248, 0, 0, 255] := by
  have h := getPixels_direct_mode texDirect 0 (by decide) (Or.inl (by decide))
    (by decide) (by decide) (by decide) (by decide) (by decide)
    (fun hab => absurd (by decide : texDirect.hdr.pixelFormat.alphaBits = 0) hab)
  refine ⟨by decide, by decide, ?_⟩
  rw [h]
  decide

end LGP
